import Mathlib

/-!
Verification of the electrical-network domain model of the repository
(`src/backend/app/modules/engine/models/load.py` and `conduit.py`).

The models are pydantic v1 `BaseModel`s.  A construction call
`Load(**kwargs)` / `Conduit(**kwargs)` validates each declared field in
declaration order: a missing required field yields a `missing` error, the
field's type validator runs next (pydantic v1 coerces between primitive
types), then any `Field` constraint (`gt=0`) and finally the decorated
`@validator` functions.  Errors are collected across fields (no
cross-field short-circuit); a field's validated value enters the `values`
dict, seen by later validators, only if that field succeeded.  Unknown
keyword arguments are silently ignored (default `Extra.ignore` config).
Attribute assignment on a constructed model with the default config
(`allow_mutation = True`, `validate_assignment = False`) writes the value
directly without running any validator.

Python floats are embedded as an inductive: an exact rational for a
finite value, plus the two infinities and NaN.  Dynamically typed raw
inputs are embedded as `PyVal` (string, int or float), so that pydantic's
primitive coercions are part of the model.
-/

/-- Embedding of a Python float: a finite value (kept exact as a
rational), positive or negative infinity, or NaN. -/
inductive PyFloat where
  | finite (q : ℚ)
  | inf
  | ninf
  | nan
deriving DecidableEq, Repr

/-- Python `==` on floats: NaN compares unequal to everything, itself
included; finite values compare by value. -/
def pyEq : PyFloat → PyFloat → Bool
  | .finite a, .finite b => a == b
  | .inf, .inf => true
  | .ninf, .ninf => true
  | _, _ => false

/-- Python `v > 0` on a float: false for NaN and negative infinity. -/
def pyGt0 : PyFloat → Bool
  | .finite q => decide (0 < q)
  | .inf => true
  | _ => false

/-- Python `v <= 0` on a float: false for NaN and positive infinity. -/
def pyLe0 : PyFloat → Bool
  | .finite q => decide (q ≤ 0)
  | .ninf => true
  | _ => false

/-- Whether the float is a finite value (not NaN, not an infinity). -/
def pyFinite : PyFloat → Bool
  | .finite _ => true
  | _ => false

/-- A dynamically typed raw field value, as supplied to a pydantic
model constructor: a Python str, int or float. -/
inductive PyVal where
  | str (s : String)
  | int (n : Int)
  | float (f : PyFloat)
deriving DecidableEq, Repr

/-- Textual form `str(v)` of a float.  The decimal rendering of a finite
value is abstracted as the rational's canonical print (injective, though
not Python's shortest-decimal form); no property proved below depends on
float-to-string conversion. -/
def pyFloatStr : PyFloat → String
  | .finite q => toString q
  | .inf => "inf"
  | .ninf => "-inf"
  | .nan => "nan"

/-- Python `float(s)` on a string, modelled for plain decimal literals
(optional sign, digits with an optional fractional part) and the
keywords inf/infinity/nan; exponent and underscore forms are not
modelled.  No property proved below depends on string-to-float
conversion. -/
def pyParseFloat (s : String) : Option PyFloat :=
  let t := s.trim
  let neg := t.startsWith "-"
  let core := if t.startsWith "-" || t.startsWith "+" then t.drop 1 else t
  let low := core.toLower
  if low = "inf" || low = "infinity" then
    some (if neg then .ninf else .inf)
  else if low = "nan" then
    some .nan
  else
    match core.split (fun c => c = '.') with
    | [w] =>
      match w.toNat? with
      | some n => some (.finite (if neg then -(n : ℚ) else (n : ℚ)))
      | none => none
    | [w, f] =>
      match (w ++ f).toNat? with
      | some n =>
        some (.finite ((if neg then -(n : ℚ) else (n : ℚ)) / (10 ^ f.length)))
      | none => none
    | _ => none

/-- Python `int()` truncation of a finite float: toward zero. -/
def pyTruncInt (q : ℚ) : Int := if 0 ≤ q then ⌊q⌋ else ⌈q⌉

/-- Pydantic v1 `str_validator`: a str passes through; int and float are
silently converted to their textual form; (bytes and other cases of the
source validator cannot arise for `PyVal`). -/
def str_validator : PyVal → Option String
  | .str s => some s
  | .int n => some (toString n)
  | .float f => some (pyFloatStr f)

/-- Pydantic v1 `float_validator`: a float passes through, an int is
widened, a string goes through Python `float(s)`. -/
def float_validator : PyVal → Option PyFloat
  | .float f => some f
  | .int n => some (.finite (n : ℚ))
  | .str s => pyParseFloat s

/-- Pydantic v1 `int_validator`: an int passes through, a finite float is
silently truncated toward zero (`int(v)`), NaN and the infinities raise,
a string goes through Python `int(s)` (optionally signed digits). -/
def int_validator : PyVal → Option Int
  | .int n => some n
  | .float (.finite q) => some (pyTruncInt q)
  | .float _ => none
  | .str s => s.trim.toInt?

/-- A single entry of a pydantic `ValidationError`, tagged with the field
it concerns. -/
inductive Err where
  | missing (fieldName : String)
  | strType (fieldName : String)
  | floatType (fieldName : String)
  | intType (fieldName : String)
  | notGt (fieldName : String)
  | enumMember (fieldName : String)
  | valueError (fieldName : String) (msg : String)
deriving DecidableEq, Repr

/-- The spec's `SelfLoop` error: the `ValueError` raised by
`Conduit.distinct_nodes`. -/
def SelfLoop : Err := .valueError "to_node" "Conduit endpoints must differ"

/-- The spec's `InvalidPower` error: the `gt=0` violation on `power`. -/
def InvalidPower : Err := .notGt "power"

/-- The spec's `InvalidVoltage` error: the `gt=0` violation on `voltage`. -/
def InvalidVoltage : Err := .notGt "voltage"

/-- The spec's `InvalidLength` error: the `gt=0` violation on `length`. -/
def InvalidLength : Err := .notGt "length"

/-- The spec's `InvalidDiameter` error: the `gt=0` violation on `diameter`. -/
def InvalidDiameter : Err := .notGt "diameter"

/-- The spec's `InvalidCoordinate` error on `x`: the `ValueError` raised
by `Load.finite_coords`. -/
def InvalidCoordinateX : Err := .valueError "x" "Coordinates must be finite numbers"

/-- The spec's `InvalidCoordinate` error on `y`. -/
def InvalidCoordinateY : Err := .valueError "y" "Coordinates must be finite numbers"

/-- The spec's `InvalidCategory` error: `type` outside the `LoadType`
enumeration. -/
def InvalidCategory : Err := .enumMember "type"

deriving instance DecidableEq for Except

/-- The error list of a failed construction (empty for a success). -/
def constructionErrs {α : Type} : Except (List Err) α → List Err
  | .error es => es
  | .ok _ => []

/-- The single error of a failed field validation (empty on success). -/
def errsOf {α : Type} : Except Err α → List Err
  | .error e => [e]
  | .ok _ => []

/-- All errors of six field validations, in field-declaration order, as
pydantic collects them into one `ValidationError`. -/
def allErrs6 {α β γ δ ε ζ : Type} (a : Except Err α) (b : Except Err β)
    (c : Except Err γ) (d : Except Err δ) (e : Except Err ε) (f : Except Err ζ) :
    List Err :=
  errsOf a ++ errsOf b ++ errsOf c ++ errsOf d ++ errsOf e ++ errsOf f

/-- Combine six independently validated fields: if all succeeded, build
the model; otherwise fail with every collected error, in field order. -/
def seq6 {α β γ δ ε ζ ρ : Type} (mk : α → β → γ → δ → ε → ζ → ρ)
    (a : Except Err α) (b : Except Err β) (c : Except Err γ)
    (d : Except Err δ) (e : Except Err ε) (f : Except Err ζ) :
    Except (List Err) ρ :=
  match a with
  | .error _ => .error (allErrs6 a b c d e f)
  | .ok va =>
    match b with
    | .error _ => .error (allErrs6 a b c d e f)
    | .ok vb =>
      match c with
      | .error _ => .error (allErrs6 a b c d e f)
      | .ok vc =>
        match d with
        | .error _ => .error (allErrs6 a b c d e f)
        | .ok vd =>
          match e with
          | .error _ => .error (allErrs6 a b c d e f)
          | .ok ve =>
            match f with
            | .error _ => .error (allErrs6 a b c d e f)
            | .ok vf => .ok (mk va vb vc vd ve vf)

/-- Validation of a plain `str` field (`id`, `from_node`, `material`):
required, then pydantic's string coercion. -/
def validateStr (fieldName : String) (v : Option PyVal) : Except Err String :=
  match v with
  | none => .error (.missing fieldName)
  | some pv =>
    match str_validator pv with
    | some s => .ok s
    | none => .error (.strType fieldName)

/-- The `LoadType` enumeration of `load.py`. -/
inductive LoadType where
  | TUG
  | TUE
  | LIGHTING
  | OTHER
deriving DecidableEq, Repr

/-- Pydantic's enum member lookup `LoadType(v)`: the four member values
(as strings, since `LoadType` derives from `str`) are accepted; any
other value raises. -/
def enumLoadType : PyVal → Option LoadType
  | .str s =>
    if s = "TUG" then some .TUG
    else if s = "TUE" then some .TUE
    else if s = "LIGHTING" then some .LIGHTING
    else if s = "OTHER" then some .OTHER
    else none
  | _ => none

/-- Validation of the `type` field: when omitted, the declared default
`LoadType.TUG` is used (pydantic does not validate defaults); when
supplied, the value must map to an enumeration member. -/
def validateLoadType (v : Option PyVal) : Except Err LoadType :=
  match v with
  | none => .ok LoadType.TUG
  | some pv =>
    match enumLoadType pv with
    | some t => .ok t
    | none => .error (.enumMember "type")

/-- Embedding of `Load.finite_coords` of `load.py`: raises a
`ValueError` unless the value is a finite number.  (The source also
checks `isinstance(v, (int, float))`, always true after pydantic's float
conversion; NaN fails `v == v`; the infinities fail the membership test
`v in (inf, -inf)`; the validator returns `float(v)`, the value itself
for a float.) -/
def finite_coords (fieldName : String) (v : PyFloat) : Except Err PyFloat :=
  if !(pyEq v v) || v = PyFloat.inf || v = PyFloat.ninf then
    .error (.valueError fieldName "Coordinates must be finite numbers")
  else
    .ok v

/-- Validation of a coordinate field (`x`, `y`): required, pydantic
float conversion, then the `finite_coords` validator. -/
def validateCoord (fieldName : String) (v : Option PyVal) : Except Err PyFloat :=
  match v with
  | none => .error (.missing fieldName)
  | some pv =>
    match float_validator pv with
    | none => .error (.floatType fieldName)
    | some f => finite_coords fieldName f

/-- Validation of a `float = Field(..., gt=0)` field (`power`, `length`,
`diameter`): required, float conversion, then pydantic's
`number_size_validator` which raises unless `v > 0`. -/
def validateGtFloat (fieldName : String) (v : Option PyVal) : Except Err PyFloat :=
  match v with
  | none => .error (.missing fieldName)
  | some pv =>
    match float_validator pv with
    | none => .error (.floatType fieldName)
    | some f => if pyGt0 f then .ok f else .error (.notGt fieldName)

/-- Validation of an `int = Field(..., gt=0)` field (`voltage`):
required, int conversion, then the `gt=0` constraint. -/
def validateGtInt (fieldName : String) (v : Option PyVal) : Except Err Int :=
  match v with
  | none => .error (.missing fieldName)
  | some pv =>
    match int_validator pv with
    | none => .error (.intType fieldName)
    | some n => if 0 < n then .ok n else .error (.notGt fieldName)

/-- The validated `Load` model of `load.py`. -/
structure Load where
  id : String
  x : PyFloat
  y : PyFloat
  power : PyFloat
  voltage : Int
  type : LoadType
deriving DecidableEq, Repr

/-- Construction `Load(**kwargs)`: validate every declared field in
declaration order (`id`, `x`, `y`, `power`, `voltage`, `type`), collect
all errors, and build the record only when every field passed.  A `none`
argument is an omitted keyword. -/
def Load.construct (id x y power voltage type_ : Option PyVal) :
    Except (List Err) Load :=
  seq6 Load.mk
    (validateStr "id" id)
    (validateCoord "x" x)
    (validateCoord "y" y)
    (validateGtFloat "power" power)
    (validateGtInt "voltage" voltage)
    (validateLoadType type_)

/-- The validated `Conduit` model of `conduit.py`.  Note the model
declares no `occupancy_percent` field. -/
structure Conduit where
  id : String
  from_node : String
  to_node : String
  length : PyFloat
  diameter : PyFloat
  material : String
deriving DecidableEq, Repr

/-- Validation of `to_node`: required, string coercion, then the
`distinct_nodes` validator of `conduit.py`, which compares the raw
validated strings for equality — but only when `from_node` is among the
already-validated values (`"from_node" in values`); when `from_node`
itself failed or was missing, the check is skipped. -/
def validateToNode (v : Option PyVal) (fromRes : Except Err String) :
    Except Err String :=
  match v with
  | none => .error (.missing "to_node")
  | some pv =>
    match str_validator pv with
    | none => .error (.strType "to_node")
    | some s =>
      match fromRes with
      | .ok f =>
        if s = f then .error SelfLoop else .ok s
      | .error _ => .ok s

/-- Construction `Conduit(**kwargs)`: validate the declared fields in
declaration order (`id`, `from_node`, `to_node`, `length`, `diameter`,
`material`) and collect all errors.  The `occupancy_percent` argument
models an unknown keyword: the model declares no such field, and
pydantic's default `Extra.ignore` config drops it silently, whatever its
value. -/
def Conduit.construct (id from_node to_node length diameter material
    occupancy_percent : Option PyVal) : Except (List Err) Conduit :=
  let rf := validateStr "from_node" from_node
  seq6 Conduit.mk
    (validateStr "id" id)
    rf
    (validateToNode to_node rf)
    (validateGtFloat "length" length)
    (validateGtFloat "diameter" diameter)
    (validateStr "material" material)

/-- A Python value as it can sit in a model instance's `__dict__`: a
primitive (str, int, float) or a `LoadType` enum member (the value a
validated construction stores in `type`).  After an unvalidated
assignment a field can hold a value of any of these types, matching or
not the field's declared type. -/
inductive PyObj where
  | str (s : String)
  | int (n : Int)
  | float (f : PyFloat)
  | loadType (t : LoadType)
deriving DecidableEq, Repr

/-- The declared field names of `Load`. -/
inductive LoadField where
  | fid
  | fx
  | fy
  | fpower
  | fvoltage
  | ftype
deriving DecidableEq, Repr

/-- The instance `__dict__` of a `Load`: one arbitrarily typed Python
value per declared field. -/
structure LoadDict where
  id : PyObj
  x : PyObj
  y : PyObj
  power : PyObj
  voltage : PyObj
  type : PyObj
deriving DecidableEq, Repr

/-- The instance dict a successful validated construction stores: every
field holds a value of its declared type. -/
def Load.dict (l : Load) : LoadDict :=
  ⟨.str l.id, .float l.x, .float l.y, .float l.power, .int l.voltage,
   .loadType l.type⟩

/-- Attribute read `load.field` from the instance dict. -/
def LoadDict.get (d : LoadDict) : LoadField → PyObj
  | .fid => d.id
  | .fx => d.x
  | .fy => d.y
  | .fpower => d.power
  | .fvoltage => d.voltage
  | .ftype => d.type

/-- Pydantic v1 attribute assignment `load.field = value` on a declared
field under the default model config (`allow_mutation = True`, no
`validate_assignment`): the supplied value — of any type — is written
directly into the instance dict; no validator runs. -/
def LoadDict.assign (d : LoadDict) : LoadField → PyObj → LoadDict
  | .fid, v => { d with id := v }
  | .fx, v => { d with x := v }
  | .fy, v => { d with y := v }
  | .fpower, v => { d with power := v }
  | .fvoltage, v => { d with voltage := v }
  | .ftype, v => { d with type := v }

/-! Small computation lemmas used by several proofs. -/

theorem validateGtFloat_float (fieldName : String) (f : PyFloat) :
    validateGtFloat fieldName (some (.float f)) =
      if pyGt0 f then .ok f else .error (.notGt fieldName) := rfl

theorem validateStr_str (fieldName : String) (s : String) :
    validateStr fieldName (some (.str s)) = .ok s := rfl

theorem validateCoord_float (fieldName : String) (f : PyFloat) :
    validateCoord fieldName (some (.float f)) = finite_coords fieldName f := rfl

theorem finite_coords_finite (fieldName : String) (q : ℚ) :
    finite_coords fieldName (.finite q) = .ok (.finite q) := by
  simp [finite_coords, pyEq]

theorem pyGt0_of_pos {q : ℚ} (h : 0 < q) : pyGt0 (.finite q) = true := by
  simp [pyGt0, h]

theorem pyGt0_of_nonpos {q : ℚ} (h : q ≤ 0) : pyGt0 (.finite q) = false := by
  simp [pyGt0, not_lt.mpr h]

/-- C4: for every power value `p ≤ 0` (with the other fields the valid
test values), `Load` construction fails with exactly the `InvalidPower`
error; for every `p > 0`, construction succeeds and the resulting load's
`power` field is the supplied value. -/
theorem c4_power_validation (p : PyFloat) :
    (pyLe0 p = true →
      Load.construct (some (.str "load_1")) (some (.float (.finite 100.5)))
        (some (.float (.finite 200.5))) (some (.float p)) (some (.int 127))
        (some (.str "TUG")) = .error [InvalidPower]) ∧
    (pyGt0 p = true →
      Load.construct (some (.str "load_1")) (some (.float (.finite 100.5)))
        (some (.float (.finite 200.5))) (some (.float p)) (some (.int 127))
        (some (.str "TUG")) =
        .ok ⟨"load_1", .finite 100.5, .finite 200.5, p, 127, .TUG⟩) := by
  constructor
  · intro h
    cases p with
    | finite q =>
      simp only [pyLe0, decide_eq_true_eq] at h
      simp [Load.construct, seq6, validateStr, validateCoord, validateGtFloat,
        validateGtInt, validateLoadType, str_validator, float_validator,
        int_validator, enumLoadType, finite_coords, pyEq, pyGt0, allErrs6,
        errsOf, InvalidPower, not_lt.mpr h]
    | inf => simp [pyLe0] at h
    | ninf =>
      simp [Load.construct, seq6, validateStr, validateCoord, validateGtFloat,
        validateGtInt, validateLoadType, str_validator, float_validator,
        int_validator, enumLoadType, finite_coords, pyEq, pyGt0, allErrs6,
        errsOf, InvalidPower]
    | nan => simp [pyLe0] at h
  · intro h
    simp [Load.construct, seq6, validateStr, validateCoord, validateGtFloat,
      validateGtInt, validateLoadType, str_validator, float_validator,
      int_validator, enumLoadType, finite_coords, pyEq, h]

/-- Witness for C4 at power -10 (fails with `InvalidPower`) and at
power 100 (succeeds with `power = 100`). -/
theorem c4_power_validation_witness :
    Load.construct (some (.str "load_1")) (some (.float (.finite 100.5)))
      (some (.float (.finite 200.5))) (some (.float (.finite (-10))))
      (some (.int 127)) (some (.str "TUG")) = .error [InvalidPower] ∧
    Load.construct (some (.str "load_1")) (some (.float (.finite 100.5)))
      (some (.float (.finite 200.5))) (some (.float (.finite 100)))
      (some (.int 127)) (some (.str "TUG")) =
      .ok ⟨"load_1", .finite 100.5, .finite 200.5, .finite 100, 127, .TUG⟩ :=
  ⟨(c4_power_validation (.finite (-10))).1 (by decide),
   (c4_power_validation (.finite 100)).2 (by decide)⟩

/-- C9: `Conduit` construction requires `length > 0` and `diameter > 0`,
failing with `InvalidLength` resp. `InvalidDiameter` otherwise; the
concrete scenario (id "cond_1", endpoints "load_1"/"load_2", length 3.5,
diameter 0.75, material "PVC") succeeds with `length = 3.5` and
`diameter = 0.75`. -/
theorem c9_conduit_length_diameter (len dia : PyFloat) :
    (pyGt0 len = false →
      InvalidLength ∈ constructionErrs (Conduit.construct (some (.str "cond_1"))
        (some (.str "load_1")) (some (.str "load_2")) (some (.float len))
        (some (.float dia)) (some (.str "PVC")) none) ∧
      (Conduit.construct (some (.str "cond_1")) (some (.str "load_1"))
        (some (.str "load_2")) (some (.float len)) (some (.float dia))
        (some (.str "PVC")) none).isOk = false) ∧
    (pyGt0 dia = false →
      InvalidDiameter ∈ constructionErrs (Conduit.construct (some (.str "cond_1"))
        (some (.str "load_1")) (some (.str "load_2")) (some (.float len))
        (some (.float dia)) (some (.str "PVC")) none) ∧
      (Conduit.construct (some (.str "cond_1")) (some (.str "load_1"))
        (some (.str "load_2")) (some (.float len)) (some (.float dia))
        (some (.str "PVC")) none).isOk = false) ∧
    Conduit.construct (some (.str "cond_1")) (some (.str "load_1"))
      (some (.str "load_2")) (some (.float (.finite 3.5)))
      (some (.float (.finite 0.75))) (some (.str "PVC")) none =
      .ok ⟨"cond_1", "load_1", "load_2", .finite 3.5, .finite 0.75, "PVC"⟩ := by
  refine ⟨fun h => ?_, fun h => ?_, ?_⟩
  · constructor <;>
      simp [Conduit.construct, seq6, validateStr, validateToNode, str_validator,
        validateGtFloat_float, h, allErrs6, errsOf, constructionErrs,
        Except.isOk, Except.toBool, InvalidLength]
  · cases hl : pyGt0 len <;> constructor <;>
      simp [Conduit.construct, seq6, validateStr, validateToNode, str_validator,
        validateGtFloat_float, h, hl, allErrs6, errsOf, constructionErrs,
        Except.isOk, Except.toBool, InvalidDiameter]
  · simp [Conduit.construct, seq6, validateStr, validateToNode, str_validator,
      validateGtFloat_float, pyGt0_of_pos (show (0:ℚ) < 3.5 by norm_num),
      pyGt0_of_pos (show (0:ℚ) < 0.75 by norm_num)]

/-- Witness for C9: at length 0 construction fails carrying
`InvalidLength`; at diameter -1 it fails carrying `InvalidDiameter`. -/
theorem c9_conduit_length_diameter_witness :
    (InvalidLength ∈ constructionErrs (Conduit.construct (some (.str "cond_1"))
      (some (.str "load_1")) (some (.str "load_2")) (some (.float (.finite 0)))
      (some (.float (.finite 0.75))) (some (.str "PVC")) none)) ∧
    (InvalidDiameter ∈ constructionErrs (Conduit.construct (some (.str "cond_1"))
      (some (.str "load_1")) (some (.str "load_2")) (some (.float (.finite 3.5)))
      (some (.float (.finite (-1)))) (some (.str "PVC")) none)) :=
  ⟨((c9_conduit_length_diameter (.finite 0) (.finite 0.75)).1 (by decide)).1,
   ((c9_conduit_length_diameter (.finite 3.5) (.finite (-1))).2.1 (by decide)).1⟩

/-- C10: when `from_node` is omitted (the other fields being valid, with
an arbitrary `to_node` string), `Conduit` construction fails with
exactly the missing-required-field error for `from_node`: the
`distinct_nodes` check is skipped because its guard requires `from_node`
among the already-validated values, so no `SelfLoop` error is reported
even though `to_node` is supplied. -/
theorem c10_missing_from_node_skips_selfloop (s : String) :
    Conduit.construct (some (.str "cond_1")) none (some (.str s))
      (some (.float (.finite 3.5))) (some (.float (.finite 0.75)))
      (some (.str "PVC")) none = .error [Err.missing "from_node"] ∧
    SelfLoop ∉ constructionErrs (Conduit.construct (some (.str "cond_1")) none
      (some (.str s)) (some (.float (.finite 3.5)))
      (some (.float (.finite 0.75))) (some (.str "PVC")) none) := by
  have h : Conduit.construct (some (.str "cond_1")) none (some (.str s))
      (some (.float (.finite 3.5))) (some (.float (.finite 0.75)))
      (some (.str "PVC")) none = .error [Err.missing "from_node"] := by
    simp [Conduit.construct, seq6, validateStr, validateToNode, str_validator,
      validateGtFloat, float_validator, pyGt0, allErrs6, errsOf,
      show (0:ℚ) < 3.5 by norm_num, show (0:ℚ) < 0.75 by norm_num]
  refine ⟨h, ?_⟩
  rw [h]
  simp [constructionErrs, SelfLoop]

/-- Modelled from the spec: identifier normalization as trimming of
surrounding whitespace (the spec's "equivalent-but-differently-formatted
ids").  The source performs no such normalization; this definition only
serves to compare the spec's notion with the code's raw comparison. -/
def normalizeId (s : String) : String :=
  ⟨((s.data.dropWhile Char.isWhitespace).reverse.dropWhile Char.isWhitespace).reverse⟩

/-- C1 (amended): the `distinct_nodes` check compares the raw supplied
endpoint strings: for every string used for both endpoints verbatim,
construction fails carrying `SelfLoop`, regardless of the `length` and
`diameter` inputs (even invalid or missing ones). -/
theorem c1_selfloop_raw_equality (s : String) (len dia : Option PyVal) :
    (Conduit.construct (some (.str "cond_1")) (some (.str s)) (some (.str s))
      len dia (some (.str "PVC")) none).isOk = false ∧
    SelfLoop ∈ constructionErrs (Conduit.construct (some (.str "cond_1"))
      (some (.str s)) (some (.str s)) len dia (some (.str "PVC")) none) := by
  constructor <;>
    simp [Conduit.construct, seq6, validateStr, validateToNode, str_validator,
      allErrs6, errsOf, constructionErrs, Except.isOk, Except.toBool]

/-- C1 counterexample: "load_1 " (trailing space) and "load_1" are equal
after trimming normalization, yet `Conduit` construction succeeds — no
`SelfLoop` is raised, because the code compares the raw strings. -/
theorem c1_trim_counterexample :
    normalizeId "load_1 " = normalizeId "load_1" ∧
    Conduit.construct (some (.str "c")) (some (.str "load_1 "))
      (some (.str "load_1")) (some (.float (.finite 1)))
      (some (.float (.finite 1))) (some (.str "PVC")) none =
      .ok ⟨"c", "load_1 ", "load_1", .finite 1, .finite 1, "PVC"⟩ := by
  constructor
  · decide
  · simp [Conduit.construct, seq6, validateStr, validateToNode, str_validator,
      validateGtFloat_float, pyGt0_of_pos (show (0:ℚ) < 1 by norm_num)]

/-- C2 (amended): the `Conduit` model declares no `occupancy_percent`
field: an `occupancy_percent` keyword of any value — in or out of
[0, 100] — is silently ignored (pydantic's default extra-field policy),
construction succeeds on otherwise valid fields with a result
independent of it, and no `InvalidOccupancy` error exists. -/
theorem c2_occupancy_ignored (occ : Option PyVal) :
    Conduit.construct (some (.str "cond_1")) (some (.str "load_1"))
      (some (.str "load_2")) (some (.float (.finite 3.5)))
      (some (.float (.finite 0.75))) (some (.str "PVC")) occ =
      .ok ⟨"cond_1", "load_1", "load_2", .finite 3.5, .finite 0.75, "PVC"⟩ := by
  simp [Conduit.construct, seq6, validateStr, validateToNode, str_validator,
    validateGtFloat_float, pyGt0_of_pos (show (0:ℚ) < 3.5 by norm_num),
    pyGt0_of_pos (show (0:ℚ) < 0.75 by norm_num)]

/-- C2 counterexample: occupancy 150 lies outside [0, 100], yet
construction succeeds instead of failing with `InvalidOccupancy`. -/
theorem c2_occupancy_counterexample :
    (Conduit.construct (some (.str "cond_1")) (some (.str "load_1"))
      (some (.str "load_2")) (some (.float (.finite 3.5)))
      (some (.float (.finite 0.75))) (some (.str "PVC"))
      (some (.float (.finite 150)))).isOk = true ∧ ¬((150:ℚ) ≤ 100) := by
  constructor
  · simp [Conduit.construct, seq6, validateStr, validateToNode, str_validator,
      validateGtFloat_float, pyGt0_of_pos (show (0:ℚ) < 3.5 by norm_num),
      pyGt0_of_pos (show (0:ℚ) < 0.75 by norm_num), Except.isOk, Except.toBool]
  · norm_num

/-- C8 (amended): `material` is a required field with no default: for
every pair of endpoint strings (the other fields valid), construction
with `material` unspecified fails, reporting the missing-field error for
`material`. -/
theorem c8_material_required (fn tn : String) :
    (Conduit.construct (some (.str "cond_1")) (some (.str fn)) (some (.str tn))
      (some (.float (.finite 3.5))) (some (.float (.finite 0.75)))
      none none).isOk = false ∧
    Err.missing "material" ∈ constructionErrs (Conduit.construct
      (some (.str "cond_1")) (some (.str fn)) (some (.str tn))
      (some (.float (.finite 3.5))) (some (.float (.finite 0.75)))
      none none) := by
  have h35 := pyGt0_of_pos (show (0:ℚ) < 3.5 by norm_num)
  have h075 := pyGt0_of_pos (show (0:ℚ) < 0.75 by norm_num)
  by_cases h : tn = fn <;> constructor <;>
    simp [Conduit.construct, seq6, validateStr, validateToNode, str_validator,
      validateGtFloat_float, h35, h075, h, allErrs6, errsOf, constructionErrs,
      Except.isOk, Except.toBool]

/-- C8 counterexample: with every other field the valid scenario value
and `material` unspecified, construction fails with the missing-field
error instead of succeeding with a default material. -/
theorem c8_material_default_counterexample :
    Conduit.construct (some (.str "cond_1")) (some (.str "load_1"))
      (some (.str "load_2")) (some (.float (.finite 3.5)))
      (some (.float (.finite 0.75))) none none =
      .error [Err.missing "material"] := by
  simp [Conduit.construct, seq6, validateStr, validateToNode, str_validator,
    validateGtFloat_float, pyGt0_of_pos (show (0:ℚ) < 3.5 by norm_num),
    pyGt0_of_pos (show (0:ℚ) < 0.75 by norm_num), allErrs6, errsOf]

/-! Reduction lemmas for single-field validations and for `seq6`, used to
keep the remaining proofs small. -/

theorem validateStr_none (fieldName : String) :
    validateStr fieldName none = .error (.missing fieldName) := rfl

theorem validateCoord_finite (fieldName : String) (q : ℚ) :
    validateCoord fieldName (some (.float (.finite q))) = .ok (.finite q) := by
  simp [validateCoord, float_validator, finite_coords_finite]

theorem validateCoord_nan (fieldName : String) :
    validateCoord fieldName (some (.float .nan)) =
      .error (.valueError fieldName "Coordinates must be finite numbers") := rfl

theorem validateCoord_inf (fieldName : String) :
    validateCoord fieldName (some (.float .inf)) =
      .error (.valueError fieldName "Coordinates must be finite numbers") := rfl

theorem validateCoord_ninf (fieldName : String) :
    validateCoord fieldName (some (.float .ninf)) =
      .error (.valueError fieldName "Coordinates must be finite numbers") := rfl

theorem validateGtFloat_pos (fieldName : String) {q : ℚ} (h : 0 < q) :
    validateGtFloat fieldName (some (.float (.finite q))) = .ok (.finite q) := by
  simp [validateGtFloat, float_validator, pyGt0_of_pos h]

theorem validateGtInt_pos (fieldName : String) {n : Int} (h : 0 < n) :
    validateGtInt fieldName (some (.int n)) = .ok n := by
  simp [validateGtInt, int_validator, h]

theorem validateLoadType_none : validateLoadType none = .ok .TUG := rfl

theorem validateLoadType_bad {v : PyVal} (h : enumLoadType v = none) :
    validateLoadType (some v) = .error (.enumMember "type") := by
  simp [validateLoadType, h]

theorem seq6_ok {α β γ δ ε ζ ρ : Type} (mk : α → β → γ → δ → ε → ζ → ρ)
    (va : α) (vb : β) (vc : γ) (vd : δ) (ve : ε) (vf : ζ) :
    seq6 mk (.ok va) (.ok vb) (.ok vc) (.ok vd) (.ok ve) (.ok vf) =
      .ok (mk va vb vc vd ve vf) := rfl

theorem seq6_err2 {α β γ δ ε ζ ρ : Type} (mk : α → β → γ → δ → ε → ζ → ρ)
    (va : α) (e : Err) (rc : Except Err γ) (rd : Except Err δ)
    (re : Except Err ε) (rf : Except Err ζ) :
    seq6 mk (.ok va) (.error e) rc rd re rf =
      .error (e :: (errsOf rc ++ errsOf rd ++ errsOf re ++ errsOf rf)) := by
  simp [seq6, allErrs6, errsOf]

theorem seq6_err3 {α β γ δ ε ζ ρ : Type} (mk : α → β → γ → δ → ε → ζ → ρ)
    (va : α) (vb : β) (e : Err) (rd : Except Err δ)
    (re : Except Err ε) (rf : Except Err ζ) :
    seq6 mk (.ok va) (.ok vb) (.error e) rd re rf =
      .error (e :: (errsOf rd ++ errsOf re ++ errsOf rf)) := by
  simp [seq6, allErrs6, errsOf]

theorem seq6_err4 {α β γ δ ε ζ ρ : Type} (mk : α → β → γ → δ → ε → ζ → ρ)
    (va : α) (vb : β) (vc : γ) (e : Err)
    (re : Except Err ε) (rf : Except Err ζ) :
    seq6 mk (.ok va) (.ok vb) (.ok vc) (.error e) re rf =
      .error (e :: (errsOf re ++ errsOf rf)) := by
  simp [seq6, allErrs6, errsOf]

theorem seq6_err5 {α β γ δ ε ζ ρ : Type} (mk : α → β → γ → δ → ε → ζ → ρ)
    (va : α) (vb : β) (vc : γ) (vd : δ) (e : Err) (rf : Except Err ζ) :
    seq6 mk (.ok va) (.ok vb) (.ok vc) (.ok vd) (.error e) rf =
      .error (e :: errsOf rf) := by
  simp [seq6, allErrs6, errsOf]

theorem seq6_err6 {α β γ δ ε ζ ρ : Type} (mk : α → β → γ → δ → ε → ζ → ρ)
    (va : α) (vb : β) (vc : γ) (vd : δ) (ve : ε) (e : Err) :
    seq6 mk (.ok va) (.ok vb) (.ok vc) (.ok vd) (.ok ve) (.error e) =
      .error [e] := rfl

/-- C7: for every non-finite `x` or `y` (NaN or an infinity), `Load`
construction fails carrying the `InvalidCoordinate` error for that
field; for every finite pair (the other fields valid) it succeeds. -/
theorem c7_finite_coordinates (x y : PyFloat) :
    (pyFinite x = false →
      InvalidCoordinateX ∈ constructionErrs (Load.construct (some (.str "load_1"))
        (some (.float x)) (some (.float y)) (some (.float (.finite 100)))
        (some (.int 127)) none) ∧
      (Load.construct (some (.str "load_1")) (some (.float x)) (some (.float y))
        (some (.float (.finite 100))) (some (.int 127)) none).isOk = false) ∧
    (pyFinite y = false →
      InvalidCoordinateY ∈ constructionErrs (Load.construct (some (.str "load_1"))
        (some (.float x)) (some (.float y)) (some (.float (.finite 100)))
        (some (.int 127)) none) ∧
      (Load.construct (some (.str "load_1")) (some (.float x)) (some (.float y))
        (some (.float (.finite 100))) (some (.int 127)) none).isOk = false) ∧
    (pyFinite x = true → pyFinite y = true →
      Load.construct (some (.str "load_1")) (some (.float x)) (some (.float y))
        (some (.float (.finite 100))) (some (.int 127)) none =
        .ok ⟨"load_1", x, y, .finite 100, 127, .TUG⟩) := by
  have h100 : (0:ℚ) < 100 := by norm_num
  have h127 : (0:Int) < 127 := by norm_num
  refine ⟨fun hx => ?_, fun hy => ?_, fun hx hy => ?_⟩ <;>
    cases x <;> cases y <;>
      simp_all [Load.construct, validateStr_str, validateCoord_finite,
        validateCoord_nan, validateCoord_inf, validateCoord_ninf,
        validateGtFloat_pos _ h100, validateGtInt_pos _ h127,
        validateLoadType_none, seq6_ok, seq6_err2, seq6_err3, errsOf,
        constructionErrs, Except.isOk, Except.toBool, pyFinite,
        InvalidCoordinateX, InvalidCoordinateY]

/-- Witness for C7: NaN for `x` is rejected with the coordinate error on
`x`, infinity for `y` with the coordinate error on `y`, and the finite
pair (0, 0) is accepted. -/
theorem c7_finite_coordinates_witness :
    InvalidCoordinateX ∈ constructionErrs (Load.construct (some (.str "load_1"))
      (some (.float .nan)) (some (.float (.finite 0)))
      (some (.float (.finite 100))) (some (.int 127)) none) ∧
    InvalidCoordinateY ∈ constructionErrs (Load.construct (some (.str "load_1"))
      (some (.float (.finite 0))) (some (.float .inf))
      (some (.float (.finite 100))) (some (.int 127)) none) ∧
    Load.construct (some (.str "load_1")) (some (.float (.finite 0)))
      (some (.float (.finite 0))) (some (.float (.finite 100)))
      (some (.int 127)) none =
      .ok ⟨"load_1", .finite 0, .finite 0, .finite 100, 127, .TUG⟩ :=
  ⟨((c7_finite_coordinates .nan (.finite 0)).1 rfl).1,
   ((c7_finite_coordinates (.finite 0) .inf).2.1 rfl).1,
   (c7_finite_coordinates (.finite 0) (.finite 0)).2.2 rfl rfl⟩

/-- C6: the `type` field is drawn from the closed four-member set
{TUG, TUE, LIGHTING, OTHER}: every other supplied value fails with
exactly the `InvalidCategory` error (never a silent default), and an
omitted `type` defaults to `TUG`. -/
theorem c6_load_type_closed_set (v : PyVal) :
    (v ∉ [PyVal.str "TUG", PyVal.str "TUE", PyVal.str "LIGHTING",
          PyVal.str "OTHER"] →
      Load.construct (some (.str "load_1")) (some (.float (.finite 100.5)))
        (some (.float (.finite 200.5))) (some (.float (.finite 100)))
        (some (.int 127)) (some v) = .error [InvalidCategory]) ∧
    Load.construct (some (.str "load_1")) (some (.float (.finite 100.5)))
      (some (.float (.finite 200.5))) (some (.float (.finite 100)))
      (some (.int 127)) none =
      .ok ⟨"load_1", .finite 100.5, .finite 200.5, .finite 100, 127, .TUG⟩ := by
  have h100 : (0:ℚ) < 100 := by norm_num
  have h127 : (0:Int) < 127 := by norm_num
  constructor
  · intro h
    have hv : enumLoadType v = none := by
      cases v with
      | str s => simp_all [enumLoadType]
      | int n => rfl
      | float f => rfl
    simp [Load.construct, validateStr_str, validateCoord_finite,
      validateGtFloat_pos _ h100, validateGtInt_pos _ h127,
      validateLoadType_bad hv, seq6_err6, InvalidCategory]
  · simp [Load.construct, validateStr_str, validateCoord_finite,
      validateGtFloat_pos _ h100, validateGtInt_pos _ h127,
      validateLoadType_none, seq6_ok]

/-- Witness for C6: the out-of-set string "LAMP" is rejected with
exactly the `InvalidCategory` error. -/
theorem c6_load_type_closed_set_witness :
    Load.construct (some (.str "load_1")) (some (.float (.finite 100.5)))
      (some (.float (.finite 200.5))) (some (.float (.finite 100)))
      (some (.int 127)) (some (.str "LAMP")) = .error [InvalidCategory] :=
  (c6_load_type_closed_set (.str "LAMP")).1 (by decide)

theorem validateGtFloat_nonpos (fieldName : String) {q : ℚ} (h : q ≤ 0) :
    validateGtFloat fieldName (some (.float (.finite q))) =
      .error (.notGt fieldName) := by
  simp [validateGtFloat, float_validator, pyGt0_of_nonpos h]

theorem validateGtFloat_inf (fieldName : String) :
    validateGtFloat fieldName (some (.float .inf)) = .ok .inf := rfl

theorem validateGtFloat_ninf (fieldName : String) :
    validateGtFloat fieldName (some (.float .ninf)) =
      .error (.notGt fieldName) := rfl

theorem validateGtFloat_nan (fieldName : String) :
    validateGtFloat fieldName (some (.float .nan)) =
      .error (.notGt fieldName) := rfl

theorem validateGtInt_nonpos (fieldName : String) {n : Int} (h : n ≤ 0) :
    validateGtInt fieldName (some (.int n)) = .error (.notGt fieldName) := by
  simp [validateGtInt, int_validator, not_lt.mpr h]

theorem validateToNode_ne {tn fn : String} (h : ¬ tn = fn) :
    validateToNode (some (.str tn)) (.ok fn) = .ok tn := by
  simp [validateToNode, str_validator, h]

theorem validateToNode_eq (s : String) :
    validateToNode (some (.str s)) (.ok s) = .error SelfLoop := by
  simp [validateToNode, str_validator]

/-- C5 (amended): for inputs supplied at each field's declared Python
type (str for the string fields, float for `x`, `y`, `power`, `length`,
`diameter`, int for `voltage`, `type` omitted), a successful `Load` or
`Conduit` construction reads back exactly the supplied value in every
field.  (Inputs of other primitive types may pass validation and be
silently coerced — see the counterexample.) -/
theorem c5_roundtrip_declared_types :
    (∀ (i : String) (x y p : PyFloat) (v : Int) (l : Load),
      Load.construct (some (.str i)) (some (.float x)) (some (.float y))
        (some (.float p)) (some (.int v)) none = .ok l →
      l.id = i ∧ l.x = x ∧ l.y = y ∧ l.power = p ∧ l.voltage = v) ∧
    (∀ (i fn tn m : String) (len dia : PyFloat) (c : Conduit),
      Conduit.construct (some (.str i)) (some (.str fn)) (some (.str tn))
        (some (.float len)) (some (.float dia)) (some (.str m)) none = .ok c →
      c.id = i ∧ c.from_node = fn ∧ c.to_node = tn ∧ c.length = len ∧
        c.diameter = dia ∧ c.material = m) := by
  constructor
  · intro i x y p v l h
    simp only [Load.construct, validateStr_str, validateLoadType_none] at h
    cases x with
    | inf => rw [validateCoord_inf, seq6_err2] at h; simp at h
    | ninf => rw [validateCoord_ninf, seq6_err2] at h; simp at h
    | nan => rw [validateCoord_nan, seq6_err2] at h; simp at h
    | finite qx =>
      rw [validateCoord_finite] at h
      cases y with
      | inf => rw [validateCoord_inf, seq6_err3] at h; simp at h
      | ninf => rw [validateCoord_ninf, seq6_err3] at h; simp at h
      | nan => rw [validateCoord_nan, seq6_err3] at h; simp at h
      | finite qy =>
        rw [validateCoord_finite] at h
        cases p with
        | ninf => rw [validateGtFloat_ninf, seq6_err4] at h; simp at h
        | nan => rw [validateGtFloat_nan, seq6_err4] at h; simp at h
        | inf =>
          rw [validateGtFloat_inf] at h
          by_cases hv : 0 < v
          · rw [validateGtInt_pos _ hv, seq6_ok] at h
            simp only [Except.ok.injEq] at h
            subst h; simp
          · rw [validateGtInt_nonpos _ (not_lt.mp hv), seq6_err5] at h
            simp at h
        | finite qp =>
          by_cases hq : 0 < qp
          · rw [validateGtFloat_pos _ hq] at h
            by_cases hv : 0 < v
            · rw [validateGtInt_pos _ hv, seq6_ok] at h
              simp only [Except.ok.injEq] at h
              subst h; simp
            · rw [validateGtInt_nonpos _ (not_lt.mp hv), seq6_err5] at h
              simp at h
          · rw [validateGtFloat_nonpos _ (not_lt.mp hq), seq6_err4] at h
            simp at h
  · intro i fn tn m len dia c h
    simp only [Conduit.construct, validateStr_str] at h
    by_cases ht : tn = fn
    · subst ht
      rw [validateToNode_eq, seq6_err3] at h
      simp at h
    · rw [validateToNode_ne ht] at h
      cases len with
      | ninf => rw [validateGtFloat_ninf, seq6_err4] at h; simp at h
      | nan => rw [validateGtFloat_nan, seq6_err4] at h; simp at h
      | inf =>
        rw [validateGtFloat_inf] at h
        cases dia with
        | ninf => rw [validateGtFloat_ninf, seq6_err5] at h; simp at h
        | nan => rw [validateGtFloat_nan, seq6_err5] at h; simp at h
        | inf =>
          rw [validateGtFloat_inf, seq6_ok] at h
          simp only [Except.ok.injEq] at h
          subst h; simp
        | finite qd =>
          by_cases hd : 0 < qd
          · rw [validateGtFloat_pos _ hd, seq6_ok] at h
            simp only [Except.ok.injEq] at h
            subst h; simp
          · rw [validateGtFloat_nonpos _ (not_lt.mp hd), seq6_err5] at h
            simp at h
      | finite ql =>
        by_cases hl : 0 < ql
        · rw [validateGtFloat_pos _ hl] at h
          cases dia with
          | ninf => rw [validateGtFloat_ninf, seq6_err5] at h; simp at h
          | nan => rw [validateGtFloat_nan, seq6_err5] at h; simp at h
          | inf =>
            rw [validateGtFloat_inf, seq6_ok] at h
            simp only [Except.ok.injEq] at h
            subst h; simp
          | finite qd =>
            by_cases hd : 0 < qd
            · rw [validateGtFloat_pos _ hd, seq6_ok] at h
              simp only [Except.ok.injEq] at h
              subst h; simp
            · rw [validateGtFloat_nonpos _ (not_lt.mp hd), seq6_err5] at h
              simp at h
        · rw [validateGtFloat_nonpos _ (not_lt.mp hl), seq6_err4] at h
          simp at h

/-- Witness for C5 at the valid test inputs of both models, discharging
the success hypotheses by computation. -/
theorem c5_roundtrip_declared_types_witness :
    ((⟨"load_1", .finite 100.5, .finite 200.5, .finite 100, 127, .TUG⟩ :
        Load).id = "load_1" ∧
      (⟨"load_1", .finite 100.5, .finite 200.5, .finite 100, 127, .TUG⟩ :
        Load).x = .finite 100.5 ∧
      (⟨"load_1", .finite 100.5, .finite 200.5, .finite 100, 127, .TUG⟩ :
        Load).y = .finite 200.5 ∧
      (⟨"load_1", .finite 100.5, .finite 200.5, .finite 100, 127, .TUG⟩ :
        Load).power = .finite 100 ∧
      (⟨"load_1", .finite 100.5, .finite 200.5, .finite 100, 127, .TUG⟩ :
        Load).voltage = 127) ∧
    ((⟨"cond_1", "load_1", "load_2", .finite 3.5, .finite 0.75, "PVC"⟩ :
        Conduit).id = "cond_1" ∧
      (⟨"cond_1", "load_1", "load_2", .finite 3.5, .finite 0.75, "PVC"⟩ :
        Conduit).from_node = "load_1" ∧
      (⟨"cond_1", "load_1", "load_2", .finite 3.5, .finite 0.75, "PVC"⟩ :
        Conduit).to_node = "load_2" ∧
      (⟨"cond_1", "load_1", "load_2", .finite 3.5, .finite 0.75, "PVC"⟩ :
        Conduit).length = .finite 3.5 ∧
      (⟨"cond_1", "load_1", "load_2", .finite 3.5, .finite 0.75, "PVC"⟩ :
        Conduit).diameter = .finite 0.75 ∧
      (⟨"cond_1", "load_1", "load_2", .finite 3.5, .finite 0.75, "PVC"⟩ :
        Conduit).material = "PVC") :=
  ⟨c5_roundtrip_declared_types.1 "load_1" (.finite 100.5) (.finite 200.5)
      (.finite 100) 127 _
      (by simp [Load.construct, validateStr_str, validateCoord_finite,
        validateGtFloat_pos _ (show (0:ℚ) < 100 by norm_num),
        validateGtInt_pos _ (show (0:Int) < 127 by norm_num),
        validateLoadType_none, seq6_ok]),
   c5_roundtrip_declared_types.2 "cond_1" "load_1" "load_2" "PVC"
      (.finite 3.5) (.finite 0.75) _
      (by simp [Conduit.construct, validateStr_str,
        validateToNode_ne (show ¬ "load_2" = "load_1" by decide),
        validateGtFloat_pos _ (show (0:ℚ) < 3.5 by norm_num),
        validateGtFloat_pos _ (show (0:ℚ) < 0.75 by norm_num), seq6_ok])⟩

/-- C5 counterexample: supplying the float 127.5 for the int-typed
`voltage` field passes validation — pydantic v1 silently truncates it to
127 — so the construction succeeds but reading back `voltage` does not
yield the supplied value. -/
theorem c5_coercion_counterexample :
    Load.construct (some (.str "l")) (some (.float (.finite 0)))
      (some (.float (.finite 0))) (some (.float (.finite 1)))
      (some (.float (.finite 127.5))) none =
      .ok ⟨"l", .finite 0, .finite 0, .finite 1, 127, .TUG⟩ ∧
    ((127 : ℚ) ≠ 127.5) := by
  constructor
  · have hvolt : validateGtInt "voltage" (some (.float (.finite 127.5))) =
        .ok 127 := by
      simp [validateGtInt, int_validator, pyTruncInt,
        show ((0:ℚ) ≤ 127.5) by norm_num, show (⌊(127.5:ℚ)⌋ = 127) by norm_num]
    simp [Load.construct, validateStr_str, validateCoord_finite,
      validateGtFloat_pos _ (show (0:ℚ) < 1 by norm_num), hvolt,
      validateLoadType_none, seq6_ok]
  · norm_num

/-- C3 (amended): pydantic v1 in-place assignment under the default
model config runs no validator at all: on any constructed `Load`, a
single-field update stores the supplied value — of any type, enum
member or not — unchanged into the instance dict and leaves the other
fields untouched; the record is not re-validated, so every `Load`
invariant (positive power, positive voltage, finite coordinates, the
closed type set) can be bypassed by a partial update. -/
theorem c3_update_unvalidated (l : Load) (f : LoadField) (v : PyObj) :
    ((l.dict).assign f v).get f = v ∧
    ∀ g : LoadField, g ≠ f → ((l.dict).assign f v).get g = (l.dict).get g := by
  constructor
  · cases f <;> rfl
  · intro g hg
    cases f <;> cases g <;> simp_all [LoadDict.assign, LoadDict.get]

/-- Witness for C3: on the valid test load, the assignment
`type := "LAMP"` (a raw string outside the enumeration) is stored
verbatim while `power` is untouched. -/
theorem c3_update_unvalidated_witness :
    ((Load.dict ⟨"load_1", .finite 100.5, .finite 200.5, .finite 100, 127,
        .TUG⟩).assign .ftype (.str "LAMP")).get .ftype = .str "LAMP" ∧
    ((Load.dict ⟨"load_1", .finite 100.5, .finite 200.5, .finite 100, 127,
        .TUG⟩).assign .ftype (.str "LAMP")).get .fpower =
      (Load.dict ⟨"load_1", .finite 100.5, .finite 200.5, .finite 100, 127,
        .TUG⟩).get .fpower :=
  ⟨(c3_update_unvalidated
      ⟨"load_1", .finite 100.5, .finite 200.5, .finite 100, 127, .TUG⟩
      .ftype (.str "LAMP")).1,
   (c3_update_unvalidated
      ⟨"load_1", .finite 100.5, .finite 200.5, .finite 100, 127, .TUG⟩
      .ftype (.str "LAMP")).2 .fpower (by decide)⟩

/-- C3 counterexample: starting from the validly constructed test load,
the single-field update `power := -10` is not rejected — the stored
power becomes -10, a value construction itself refuses — and the update
`type := "LAMP"` stores a raw string that is no member of the closed
category set, so both the positivity and the closed-set invariants are
bypassed by partial in-place updates. -/
theorem c3_update_counterexample :
    (Load.construct (some (.str "load_1")) (some (.float (.finite 100.5)))
      (some (.float (.finite 200.5))) (some (.float (.finite 100)))
      (some (.int 127)) (some (.str "TUG"))).map
        (fun l => ((l.dict).assign .fpower (.float (.finite (-10)))).get
          .fpower) = .ok (.float (.finite (-10))) ∧
    pyGt0 (.finite (-10)) = false ∧
    (Load.construct (some (.str "load_1")) (some (.float (.finite 100.5)))
      (some (.float (.finite 200.5))) (some (.float (.finite 100)))
      (some (.int 127)) (some (.str "TUG"))).map
        (fun l => ((l.dict).assign .ftype (.str "LAMP")).get .ftype) =
      .ok (.str "LAMP") ∧
    enumLoadType (.str "LAMP") = none := by
  have henum : enumLoadType (.str "TUG") = some .TUG := rfl
  have hcon : Load.construct (some (.str "load_1"))
      (some (.float (.finite 100.5))) (some (.float (.finite 200.5)))
      (some (.float (.finite 100))) (some (.int 127)) (some (.str "TUG")) =
      .ok ⟨"load_1", .finite 100.5, .finite 200.5, .finite 100, 127, .TUG⟩ := by
    simp [Load.construct, validateStr_str, validateCoord_finite,
      validateGtFloat_pos _ (show (0:ℚ) < 100 by norm_num),
      validateGtInt_pos _ (show (0:Int) < 127 by norm_num),
      validateLoadType, henum, seq6_ok]
  refine ⟨?_, by decide, ?_, rfl⟩ <;>
    simp [hcon, Except.map, Load.dict, LoadDict.assign, LoadDict.get]
